import Mathlib

/-!
A shallow embedding of the bitcoin-p2p connection lifecycle engine:
the handshake state machine (src/handshake.rs), the message-rate and
ping-liveness trackers (src/lib.rs), and the writer/reader/transport
logic (src/net.rs).  Machine integers are modelled as Nat/Int, the f64
message counter as an exact rational, Instant timestamps as Nat seconds,
and fallible operations as Except/Option.
-/

/-- Protocol versions are u32 values in the source; modelled as Nat. -/
abbrev ProtocolVersion := Nat

/-- Absolute protocol floor, constant of the p2p dependency crate (31800). -/
def MIN_PEER_PROTO_VERSION : ProtocolVersion := 31800

/-- Version threshold for header-first block announcements, from the p2p dependency crate (70012). -/
def SENDHEADERS_VERSION : ProtocolVersion := 70012

/-- Version threshold for witness-txid relay, from the p2p dependency crate (70016). -/
def WTXID_RELAY_VERSION : ProtocolVersion := 70016

/-- Default protocol version of this client, src/handshake.rs line 22. -/
def PROTOCOL_VERSION : ProtocolVersion := WTXID_RELAY_VERSION

/-- Service flag bitmasks are u64 values in the source; modelled as Nat. -/
abbrev ServiceFlags := Nat

/-- Services offered by default, src/handshake.rs line 21 (ServiceFlags::NONE). -/
def SERVICES : ServiceFlags := 0

/-- ServiceFlags::has from the dependency crate: all bits of the flags argument are present. -/
def serviceFlagsHas (self flags : ServiceFlags) : Bool :=
  Nat.land self flags == flags

/-- FeeRate::BROADCAST_MIN of the dependency crate, in sats per kwu. -/
def FEE_RATE_BROADCAST_MIN : Nat := 1000

/-- Target networks, mirroring bitcoin::Network as used by this crate. -/
inductive Network
  | bitcoin
  | testnet
  | signet
  | regtest
deriving DecidableEq

/-- Compact-block relay announcement payload (p2p SendCmpct). -/
structure SendCmpct where
  send_compact : Bool
  version : Nat
deriving DecidableEq

/-- Alert message payload; the code only ever sends Alert::final_alert(). -/
inductive AlertPayload
  | finalAlert
deriving DecidableEq

/-- Version message fields, mirroring p2p VersionMessage. The two network
addresses are opaque (the code always sends Address::useless and never reads
them) and the user agent is modelled as its rendered string. -/
structure VersionMessage where
  version : ProtocolVersion
  services : ServiceFlags
  timestamp : Int
  receiver : Unit
  sender : Unit
  nonce : Nat
  user_agent : String
  start_height : Int
  relay : Bool
deriving DecidableEq

/-- Network messages, restricted to the constructors this crate inspects or
produces. Payloads the code never reads are reduced to the data it does read
(address lists keep only their elements as unit placeholders, since only the
length is observed). All remaining message types are collapsed into the
otherMessage constructor carrying their command string. -/
inductive NetworkMessage
  | version (v : VersionMessage)
  | verack
  | wtxidRelay
  | sendAddrV2
  | sendHeaders
  | sendCmpct (c : SendCmpct)
  | feeFilter (feerate : Nat)
  | getAddr
  | alert (a : AlertPayload)
  | ping (nonce : Nat)
  | pong (nonce : Nat)
  | block
  | headers
  | cfilter
  | addr (list : List Unit)
  | addrV2 (list : List Unit)
  | otherMessage (cmd : String)
deriving DecidableEq

/-- Command string of a message (NetworkMessage::command in the dependency crate). -/
def NetworkMessage.command : NetworkMessage → String
  | .version _ => "version"
  | .verack => "verack"
  | .wtxidRelay => "wtxidrelay"
  | .sendAddrV2 => "sendaddrv2"
  | .sendHeaders => "sendheaders"
  | .sendCmpct _ => "sendcmpct"
  | .feeFilter _ => "feefilter"
  | .getAddr => "getaddr"
  | .alert _ => "alert"
  | .ping _ => "ping"
  | .pong _ => "pong"
  | .block => "block"
  | .headers => "headers"
  | .cfilter => "cfilter"
  | .addr _ => "addr"
  | .addrV2 _ => "addrv2"
  | .otherMessage cmd => cmd

/-- FeelerData, src/lib.rs lines 23 to 35. -/
structure FeelerData where
  effective_version : ProtocolVersion
  services : ServiceFlags
  net_time_difference : Int
  reported_height : Int
  nonce : Nat
deriving DecidableEq

/-- Preferences, src/lib.rs lines 39 to 49. -/
structure Preferences where
  sendheaders : Bool
  sendaddrv2 : Bool
  sendcmpct : SendCmpct
  sendwtxid : Bool
deriving DecidableEq

/-- Preferences::new, src/lib.rs lines 51 to 63 (also Default::default). -/
def Preferences.new : Preferences :=
  { sendheaders := false
    sendaddrv2 := false
    sendcmpct := { send_compact := false, version := 0 }
    sendwtxid := false }

/-- ConnectionConfig, src/handshake.rs lines 26 to 37. -/
structure ConnectionConfig where
  our_version : ProtocolVersion
  our_services : ServiceFlags
  expected_version : ProtocolVersion
  expected_services : ServiceFlags
  send_cmpct : SendCmpct
  user_agent : String
  our_height : Int
  fee_filter : Nat
  network : Network
  request_addr : Bool
deriving DecidableEq

/-- ConnectionConfig::new, src/handshake.rs lines 41 to 58. -/
def ConnectionConfig.new : ConnectionConfig :=
  { our_version := PROTOCOL_VERSION
    our_services := SERVICES
    expected_version := PROTOCOL_VERSION
    expected_services := SERVICES
    send_cmpct := { send_compact := false, version := 0 }
    user_agent := "SwiftSync"
    our_height := 0
    fee_filter := FEE_RATE_BROADCAST_MIN
    network := Network.bitcoin
    request_addr := false }

/-- ConnectionConfig::request_addr builder, src/handshake.rs lines 72 to 75. -/
def ConnectionConfig.requestAddrOn (self : ConnectionConfig) : ConnectionConfig :=
  { self with request_addr := true }

/-- ConnectionConfig::decrease_version_requirement, src/handshake.rs lines 78 to 81. -/
def ConnectionConfig.decrease_version_requirement
    (self : ConnectionConfig) (protocol_version : ProtocolVersion) : ConnectionConfig :=
  { self with expected_version := protocol_version }

/-- ConnectionConfig::set_service_requirement, src/handshake.rs lines 84 to 87. -/
def ConnectionConfig.set_service_requirement
    (self : ConnectionConfig) (service_flags : ServiceFlags) : ConnectionConfig :=
  { self with expected_services := service_flags }

/-- Handshake errors, src/handshake.rs lines 253 to 262. -/
inductive HandshakeError
  | irrelevantMessage (cmd : String)
  | connectionToSelf
  | tooLowVersion (v : ProtocolVersion)
  | missingService (s : ServiceFlags)
deriving DecidableEq

/-- InitializedHandshake, src/handshake.rs lines 194 to 200. -/
structure InitializedHandshake where
  feeler : FeelerData
  their_preferences : Preferences
  fee_filter : Nat
  send_cmpct : SendCmpct
  request_addr : Bool
deriving DecidableEq

/-- CompletedHandshake, src/handshake.rs lines 246 to 249. -/
structure CompletedHandshake where
  feeler : FeelerData
  their_preferences : Preferences
deriving DecidableEq

/-- ConnectionConfig::start_handshake, src/handshake.rs lines 133 to 184.
The unix_time argument is a whole number of seconds (the source converts the
Duration to seconds both for the version timestamp and the net time
difference). -/
def ConnectionConfig.start_handshake (self : ConnectionConfig) (unix_time : Nat)
    (network_message : NetworkMessage) (nonce : Nat) :
    Except HandshakeError (InitializedHandshake × List NetworkMessage) :=
  match network_message with
  | .version version =>
    if version.nonce = nonce then
      Except.error HandshakeError.connectionToSelf
    else if version.version < self.expected_version ∨
        version.version < MIN_PEER_PROTO_VERSION then
      Except.error (HandshakeError.tooLowVersion version.version)
    else if !(serviceFlagsHas version.services self.expected_services) then
      Except.error (HandshakeError.missingService version.services)
    else
      let effective_version := min self.our_version version.version
      let suggested_messages :=
        (if WTXID_RELAY_VERSION ≤ effective_version then [NetworkMessage.wtxidRelay] else []) ++
        (if 70016 ≤ effective_version then [NetworkMessage.sendAddrV2] else []) ++
        (if SENDHEADERS_VERSION ≤ effective_version then [NetworkMessage.sendHeaders]
         else [NetworkMessage.alert AlertPayload.finalAlert])
      let feeler : FeelerData :=
        { effective_version := effective_version
          services := version.services
          net_time_difference := (unix_time : Int) - version.timestamp
          reported_height := version.start_height
          nonce := nonce }
      let handshake : InitializedHandshake :=
        { feeler := feeler
          their_preferences := Preferences.new
          send_cmpct := self.send_cmpct
          fee_filter := self.fee_filter
          request_addr := self.request_addr }
      Except.ok (handshake, suggested_messages)
  | e => Except.error (HandshakeError.irrelevantMessage e.command)

/-- InitializedHandshake::negotiate, src/handshake.rs lines 203 to 242.
The source mutates self in place; the successor state is returned explicitly
here alongside the optional completion. -/
def InitializedHandshake.negotiate (self : InitializedHandshake)
    (message : NetworkMessage) :
    Except HandshakeError
      (InitializedHandshake × Option (CompletedHandshake × List NetworkMessage)) :=
  match message with
  | .verack =>
    let verack_msg := NetworkMessage.verack
    let fee_filter := NetworkMessage.feeFilter self.fee_filter
    let send_cmpct := NetworkMessage.sendCmpct self.send_cmpct
    let messages := [verack_msg, send_cmpct, fee_filter]
    let messages := if self.request_addr then messages ++ [NetworkMessage.getAddr] else messages
    Except.ok (self,
      some ({ feeler := self.feeler, their_preferences := self.their_preferences }, messages))
  | .wtxidRelay =>
    Except.ok ({ self with their_preferences := { self.their_preferences with sendwtxid := true } }, none)
  | .sendAddrV2 =>
    Except.ok ({ self with their_preferences := { self.their_preferences with sendaddrv2 := true } }, none)
  | .sendCmpct cmpct =>
    Except.ok ({ self with their_preferences := { self.their_preferences with sendcmpct := cmpct } }, none)
  | .sendHeaders =>
    Except.ok ({ self with their_preferences := { self.their_preferences with sendheaders := true } }, none)
  | e => Except.error (HandshakeError.irrelevantMessage e.command)

/-- Upgrade-message list as a function of the effective version alone,
extracted from the body of start_handshake (src/handshake.rs lines 156 to 167). -/
def upgradeMessages (effective_version : ProtocolVersion) : List NetworkMessage :=
  (if WTXID_RELAY_VERSION ≤ effective_version then [NetworkMessage.wtxidRelay] else []) ++
  (if 70016 ≤ effective_version then [NetworkMessage.sendAddrV2] else []) ++
  (if SENDHEADERS_VERSION ≤ effective_version then [NetworkMessage.sendHeaders]
   else [NetworkMessage.alert AlertPayload.finalAlert])

/-- Recognizer for the header-announce opt-in message. -/
def NetworkMessage.isSendHeadersMsg : NetworkMessage → Bool
  | .sendHeaders => true
  | _ => false

/-- Recognizer for alert messages. -/
def NetworkMessage.isAlertMsg : NetworkMessage → Bool
  | .alert _ => true
  | _ => false

/-- Recognizer for the witness-txid relay opt-in message. -/
def NetworkMessage.isWtxidRelayMsg : NetworkMessage → Bool
  | .wtxidRelay => true
  | _ => false

/-- Recognizer for the v2-address opt-in message. -/
def NetworkMessage.isSendAddrV2Msg : NetworkMessage → Bool
  | .sendAddrV2 => true
  | _ => false

/-- Recognizer for the four feature-announcement messages handled during negotiation. -/
def NetworkMessage.isFeatureMsg : NetworkMessage → Bool
  | .wtxidRelay => true
  | .sendAddrV2 => true
  | .sendHeaders => true
  | .sendCmpct _ => true
  | _ => false

/-- Run negotiate over a sequence of messages, keeping only the evolving
handshake state (each feature message returns no completion). -/
def negotiateAll (hs : InitializedHandshake) :
    List NetworkMessage → Except HandshakeError InitializedHandshake
  | [] => Except.ok hs
  | m :: ms =>
    match hs.negotiate m with
    | .ok (hs2, _) => negotiateAll hs2 ms
    | .error e => Except.error e

/-- Projection of a start_handshake result onto its handshake state, if successful. -/
def startHandshakeState
    (r : Except HandshakeError (InitializedHandshake × List NetworkMessage)) :
    Option InitializedHandshake :=
  match r with
  | .ok (hs, _) => some hs
  | .error _ => none

/-- Saturation bound for the usize to u32 conversion in MessageRate::add_messages. -/
def U32_MAX : Nat := 4294967295

/-- MessageRate, src/lib.rs lines 118 to 128. The f64 count is modelled as an
exact rational; every value the program stores in it is an integer sum of u32
values, each of which converts to f64 exactly. Instant timestamps are whole
seconds. -/
inductive MessageRate
  | noneReceived
  | ongoing (count : ℚ) (start : Nat)
deriving DecidableEq

/-- MessageRate::new, src/lib.rs lines 131 to 133. -/
def MessageRate.new : MessageRate := MessageRate.noneReceived

/-- MessageRate::add_messages, src/lib.rs lines 139 to 154. The source
saturates the usize count into a u32 before converting it to f64. -/
def MessageRate.add_messages (self : MessageRate) (num_messages : Nat) (now : Nat) :
    MessageRate :=
  if num_messages = 0 then self
  else
    let num_messages := min num_messages U32_MAX
    match self with
    | .noneReceived => MessageRate.ongoing (num_messages : ℚ) now
    | .ongoing count start => MessageRate.ongoing (count + (num_messages : ℚ)) start

/-- MessageRate::add_single_message, src/lib.rs lines 135 to 137. -/
def MessageRate.add_single_message (self : MessageRate) (now : Nat) : MessageRate :=
  self.add_messages 1 now

/-- MessageRate::messages_per_secs, src/lib.rs lines 157 to 164. The source
divides by now.duration_since(start) in seconds, which saturates at zero when
now is earlier than start, exactly as Nat subtraction does. -/
def MessageRate.messages_per_secs (self : MessageRate) (now : Nat) : Option ℚ :=
  match self with
  | .noneReceived => none
  | .ongoing count start => some (count / ((now - start : Nat) : ℚ))

/-- MessageRate::total_count, src/lib.rs lines 167 to 172 (f64 cast to u32,
exact for the integer counts the program produces). -/
def MessageRate.total_count (self : MessageRate) : Nat :=
  match self with
  | .noneReceived => 0
  | .ongoing count _ => count.floor.toNat

/-- TimedMessage, src/lib.rs lines 177 to 186. -/
inductive TimedMessage
  | blockHeaders
  | cFilters
  | block
  | addr
deriving DecidableEq

/-- TimedMessages, src/lib.rs line 189: a HashMap from category to
accumulator, modelled as an association list with unique keys. -/
def TimedMessages := List (TimedMessage × MessageRate)

/-- TimedMessages::new, src/lib.rs lines 192 to 203. -/
def TimedMessages.new : TimedMessages :=
  [(TimedMessage.blockHeaders, MessageRate.new),
   (TimedMessage.cFilters, MessageRate.new),
   (TimedMessage.block, MessageRate.new),
   (TimedMessage.addr, MessageRate.new)]

/-- HashMap::get on the association list. -/
def TimedMessages.get (tm : TimedMessages) (key : TimedMessage) : Option MessageRate :=
  match tm with
  | [] => none
  | (k, r) :: rest => if k = key then some r else TimedMessages.get rest key

/-- HashMap::get_mut followed by an in-place update of the unique entry. -/
def TimedMessages.modifyEntry (tm : TimedMessages) (key : TimedMessage)
    (f : MessageRate → MessageRate) : TimedMessages :=
  match tm with
  | [] => []
  | (k, r) :: rest =>
    if k = key then (k, f r) :: rest
    else (k, r) :: TimedMessages.modifyEntry rest key f

/-- TimedMessages::add_single, src/lib.rs lines 205 to 211. The expect call
panics when the category is absent from the map; the panic is modelled as
none. -/
def TimedMessages.add_single (tm : TimedMessages) (message : TimedMessage)
    (now : Nat) : Option TimedMessages :=
  match tm.get message with
  | some _ => some (tm.modifyEntry message (fun val => val.add_single_message now))
  | none => none

/-- TimedMessages::add_many, src/lib.rs lines 213 to 219, with the same
panic-as-none convention. -/
def TimedMessages.add_many (tm : TimedMessages) (message : TimedMessage)
    (num_messages : Nat) (now : Nat) : Option TimedMessages :=
  match tm.get message with
  | some _ => some (tm.modifyEntry message (fun val => val.add_messages num_messages now))
  | none => none

/-- TimedMessages::message_rate, src/lib.rs lines 221 to 225, with the same
panic-as-none convention. -/
def TimedMessages.message_rate (tm : TimedMessages) (message : TimedMessage) :
    Option MessageRate :=
  tm.get message

/-- One recorded operation against the per-category counters. -/
inductive TimedOp
  | single (m : TimedMessage) (now : Nat)
  | many (m : TimedMessage) (num : Nat) (now : Nat)
deriving DecidableEq

/-- Apply one counter operation; none models the expect panic. -/
def applyTimedOp (tm : TimedMessages) (op : TimedOp) : Option TimedMessages :=
  match op with
  | .single m now => tm.add_single m now
  | .many m num now => tm.add_many m num now

/-- Apply a sequence of counter operations, propagating a panic as none. -/
def applyTimedOps (tm : TimedMessages) : List TimedOp → Option TimedMessages
  | [] => some tm
  | op :: ops =>
    match applyTimedOp tm op with
    | some tm2 => applyTimedOps tm2 ops
    | none => none

/-- OutboundPing, src/lib.rs lines 235 to 238 (Instants as Nat seconds). -/
inductive OutboundPing
  | waiting (nonce : Nat) (since : Nat)
  | lastReceived (since : Nat)
deriving DecidableEq

/-- Number of outstanding unmatched pings in a liveness state. -/
def OutboundPing.outstanding : OutboundPing → Nat
  | .waiting _ _ => 1
  | .lastReceived _ => 0

/-- The liveness check in the body of OpenWriter::maintain_connection,
src/net.rs lines 236 to 252: from LastReceived, once strictly more than
ping_interval seconds have elapsed, a probe with a fresh random nonce is
written and the state moves to Waiting stamped with the current time; in
Waiting nothing happens. Returns the successor state with the probe messages
written. -/
def pingCheck (ping_interval : Nat) (ping : OutboundPing) (now fresh_nonce : Nat) :
    OutboundPing × List NetworkMessage :=
  match ping with
  | .lastReceived since =>
    if ping_interval < now - since then
      (OutboundPing.waiting fresh_nonce now, [NetworkMessage.ping fresh_nonce])
    else
      (ping, [])
  | .waiting _ _ => (ping, [])

/-- Result of one iteration of the writer actor loop: either keep looping
with a successor liveness state and the messages written this iteration, or
return Ok from the actor. -/
inductive WriterStep
  | step (ping : OutboundPing) (written : List NetworkMessage)
  | exitOk
deriving DecidableEq

/-- Outcome of Receiver::recv_timeout in the writer loop. -/
inductive RecvEvent
  | received (m : NetworkMessage)
  | timeout
  | disconnected
deriving DecidableEq

/-- One iteration of OpenWriter::maintain_connection, src/net.rs lines 223 to
255. A received channel message is framed and written and the iteration then
falls through to the liveness check; a receive timeout executes continue,
which skips the liveness check; a disconnected channel returns Ok. The mutex
around the ping state always succeeds in this single-threaded model. -/
def OpenWriter.maintainConnectionStep (ping_interval : Nat) (ping : OutboundPing)
    (event : RecvEvent) (now fresh_nonce : Nat) : WriterStep :=
  match event with
  | .received network_message =>
    let checked := pingCheck ping_interval ping now fresh_nonce
    WriterStep.step checked.1 ([network_message] ++ checked.2)
  | .timeout => WriterStep.step ping []
  | .disconnected => WriterStep.exitOk

/-- The pong arm of ConnectionReader::read_message, src/net.rs lines 303 to
315: while Waiting, a reply carrying the pending nonce confirms liveness and
records the time; any other reply, or a reply while not waiting, is ignored. -/
def ConnectionReader.pongUpdate (ping : OutboundPing) (pong_nonce : Nat) (now : Nat) :
    OutboundPing :=
  match ping with
  | .waiting nonce _ =>
    if pong_nonce = nonce then OutboundPing.lastReceived now else ping
  | .lastReceived _ => ping

/-- Events touching the shared liveness state: one writer-loop iteration
(with its channel outcome, current time and fresh nonce), or the reader
processing an inbound pong. -/
inductive PingEvent
  | writer (event : RecvEvent) (now fresh_nonce : Nat)
  | pongMsg (nonce : Nat) (now : Nat)
deriving DecidableEq

/-- Transition of the liveness state under one event, together with the
number of liveness probes the event writes (probes injected by the liveness
check itself, not caller traffic relayed by the writer). -/
def pingStep (ping_interval : Nat) (ping : OutboundPing) : PingEvent → OutboundPing × Nat
  | .writer event now fresh_nonce =>
    match event with
    | .received _ =>
      let checked := pingCheck ping_interval ping now fresh_nonce
      (checked.1, checked.2.length)
    | .timeout => (ping, 0)
    | .disconnected => (ping, 0)
  | .pongMsg nonce now => (ConnectionReader.pongUpdate ping nonce now, 0)

/-- Number of confirmations (matched pong replies) an event produces. -/
def pingConfirms (ping : OutboundPing) : PingEvent → Nat
  | .writer _ _ _ => 0
  | .pongMsg nonce _ =>
    match ping with
    | .waiting pending _ => if nonce = pending then 1 else 0
    | .lastReceived _ => 0

/-- Run the liveness state machine over a trace, returning the final state,
the total number of probes issued and the total number of confirmations. -/
def runPing (ping_interval : Nat) (ping : OutboundPing) :
    List PingEvent → OutboundPing × Nat × Nat
  | [] => (ping, 0, 0)
  | e :: es =>
    let stepped := pingStep ping_interval ping e
    let confirmed := pingConfirms ping e
    let rest := runPing ping_interval stepped.1 es
    (rest.1, stepped.2 + rest.2.1, confirmed + rest.2.2)

/-- The preference-updating arms of ConnectionReader::read_message,
src/net.rs lines 270 to 321, projected onto the shared preference record.
The dispatch (which message types update which field) is from the source;
the two setter bodies are Modelled from the spec: prefers_header_announcment
and prefers_cmpct are declared on the shared preference tracker and called
here, but their definitions are not under src/. Per the spec, each performs a
single store of its field: the header-announce flag is set, and the
compact-block version field is stored from the announced version. All other
message types leave the preferences untouched. -/
def readerPrefUpdate (p : Preferences) (m : NetworkMessage) : Preferences :=
  match m with
  | .sendHeaders => { p with sendheaders := true }
  | .sendCmpct cmpct => { p with sendcmpct := { p.sendcmpct with version := cmpct.version } }
  | _ => p

/-- Fold the reader preference updates over a sequence of inbound messages. -/
def readerPrefFold (p : Preferences) (ms : List NetworkMessage) : Preferences :=
  ms.foldl readerPrefUpdate p

/-- Errors of the networking layer, src/net.rs lines 374 to 385. The only
I/O failure read_message itself produces is the UnexpectedEof of a failed
read_exact. -/
inductive NetError
  | deserialize
  | ioUnexpectedEof
  | unexpectedMagic (m : Nat)
  | missingVersion
deriving DecidableEq

/-- Little-endian value of a byte list. -/
def leBytes : List Nat → Nat
  | [] => 0
  | b :: rest => b % 256 + 256 * leBytes rest

/-- ReadTransport::read_message, src/net.rs lines 352 to 370, over an
explicit byte stream (end of stream = list exhausted). read_exact fails with
UnexpectedEof whenever the stream ends before the requested bytes, including
when zero bytes are available. The 24-byte header layout (magic from the
first four bytes, payload length little-endian from bytes 16 to 19) follows
the wire format; decoding of the assembled header-plus-payload buffer into a
structured message happens in the dependency crate and is passed in as the
decode_raw function, a failure of which is the Deserialize error. Returns the
decoded message with the unconsumed remainder of the stream. -/
def ReadTransport.read_message (decode_raw : List Nat → Option NetworkMessage)
    (magic : Nat) (stream : List Nat) :
    Except NetError (Option NetworkMessage × List Nat) :=
  if stream.length < 24 then Except.error NetError.ioUnexpectedEof
  else
    let message_buf := stream.take 24
    let rest := stream.drop 24
    let header_magic := leBytes (message_buf.take 4)
    let header_length := leBytes ((message_buf.drop 16).take 4)
    if header_magic ≠ magic then Except.error (NetError.unexpectedMagic header_magic)
    else if rest.length < header_length then Except.error NetError.ioUnexpectedEof
    else
      let contents_buf := rest.take header_length
      match decode_raw (message_buf ++ contents_buf) with
      | some message => Except.ok (some message, rest.drop header_length)
      | none => Except.error NetError.deserialize

/-- Whether a framed read returned the no-message outcome. -/
def isNoMessage (r : Except NetError (Option NetworkMessage × List Nat)) : Bool :=
  match r with
  | .ok (none, _) => true
  | _ => false

/-- Whether a handshake result failed specifically with TooLowVersion. -/
def resultIsTooLowVersion
    (r : Except HandshakeError (InitializedHandshake × List NetworkMessage)) : Bool :=
  match r with
  | .error (.tooLowVersion _) => true
  | _ => false

/-- Mock version message mirroring build_mock_version in the handshake tests
(timestamp 222222222, useless addresses, nonstandard user agent, height 0). -/
def mockVersionMsg (with_version : ProtocolVersion) (with_services : ServiceFlags)
    (nonce : Nat) : VersionMessage :=
  { version := with_version
    services := with_services
    timestamp := 222222222
    receiver := ()
    sender := ()
    nonce := nonce
    user_agent := "hello"
    start_height := 0
    relay := false }

/-- The handshake state start_handshake produces for the default config,
unix time 0, the mock version message at version 70016 with no services and
nonce 43, against our nonce 42. -/
def mockHandshakeState : InitializedHandshake :=
  { feeler :=
      { effective_version := 70016
        services := 0
        net_time_difference := -222222222
        reported_height := 0
        nonce := 42 }
    their_preferences := Preferences.new
    fee_filter := FEE_RATE_BROADCAST_MIN
    send_cmpct := { send_compact := false, version := 0 }
    request_addr := false }

/-- Compact-block preference flag after a negotiation message sequence, if it
completes without error. -/
def negotiatedCmpctFlag (hs : InitializedHandshake) (ms : List NetworkMessage) :
    Option Bool :=
  match negotiateAll hs ms with
  | .ok hs2 => some hs2.their_preferences.sendcmpct.send_compact
  | .error _ => none

/-- C9: for every inbound version message whose nonce equals our connection
nonce, start_handshake fails with ConnectionToSelf, whatever the declared
version, services and remaining fields are. -/
theorem c9_connection_to_self (cfg : ConnectionConfig) (v : VersionMessage) (t : Nat) :
    cfg.start_handshake t (NetworkMessage.version v) v.nonce =
      Except.error HandshakeError.connectionToSelf := by
  simp [ConnectionConfig.start_handshake]

/-- C8: in the Negotiating state, a verack completes the handshake, returning
the FeelerData-plus-Preferences bundle and the outbound batch in the order
verack echo, configured compact-block preference, configured minimum relay
fee, followed by an address-gossip request exactly when it was requested at
configuration time (the flag start_handshake copies out of the config). -/
theorem c8_verack_finalization :
    (∀ hs : InitializedHandshake,
      hs.negotiate NetworkMessage.verack =
        Except.ok (hs,
          some ({ feeler := hs.feeler, their_preferences := hs.their_preferences },
            [NetworkMessage.verack, NetworkMessage.sendCmpct hs.send_cmpct,
             NetworkMessage.feeFilter hs.fee_filter] ++
            (if hs.request_addr then [NetworkMessage.getAddr] else [])))) ∧
    (∀ (cfg : ConnectionConfig) (t : Nat) (m : NetworkMessage) (n : Nat),
      Option.all (fun hs => hs.request_addr == cfg.request_addr)
        (startHandshakeState (cfg.start_handshake t m n)) = true) := by
  constructor
  · intro hs
    by_cases h : hs.request_addr <;>
      simp [InitializedHandshake.negotiate, h]
  · intro cfg t m n
    cases m <;> try rfl
    simp only [ConnectionConfig.start_handshake]
    split_ifs <;> simp [startHandshakeState, Option.all]

/-- C4: the writer loop writes a received channel message and exits cleanly
on disconnection, but a channel receive timeout executes continue and thereby
skips the liveness check entirely: with the last confirmation 100 seconds old
and a 30-second ping interval, the timeout iteration writes nothing and
leaves the state unchanged, even though the liveness check, had it run, would
have issued a probe. -/
theorem c4_timeout_skips_liveness_check :
    OpenWriter.maintainConnectionStep 30 (OutboundPing.lastReceived 0)
        RecvEvent.timeout 100 7 =
      WriterStep.step (OutboundPing.lastReceived 0) [] ∧
    pingCheck 30 (OutboundPing.lastReceived 0) 100 7 =
      (OutboundPing.waiting 7 100, [NetworkMessage.ping 7]) ∧
    OpenWriter.maintainConnectionStep 30 (OutboundPing.lastReceived 0)
        RecvEvent.disconnected 100 7 =
      WriterStep.exitOk ∧
    OpenWriter.maintainConnectionStep 30 (OutboundPing.lastReceived 90)
        (RecvEvent.received NetworkMessage.getAddr) 100 7 =
      WriterStep.step (OutboundPing.lastReceived 90) [NetworkMessage.getAddr] := by
  decide

/-- C5: the framed read never produces the no-message outcome: end-of-stream
before any header byte makes read_exact fail with UnexpectedEof, surfaced as
an I/O error, exactly as a partial header read is. -/
theorem c5_no_message_unreachable :
    (∀ (decode_raw : List Nat → Option NetworkMessage) (magic : Nat) (stream : List Nat),
      isNoMessage (ReadTransport.read_message decode_raw magic stream) = false) ∧
    ReadTransport.read_message (fun _ => none) 0 [] =
      Except.error NetError.ioUnexpectedEof ∧
    ReadTransport.read_message (fun _ => none) 0 (List.replicate 10 0) =
      Except.error NetError.ioUnexpectedEof := by
  refine ⟨?_, rfl, ?_⟩
  · intro d m s
    simp only [ReadTransport.read_message]
    split
    · rfl
    · split
      · rfl
      · split
        · rfl
        · split <;> rfl
  · rfl

/-- C7: recording zero messages is a no-op; the first nonzero record
initializes the accumulator to the (u32-saturated) count and the current
time; later records accumulate the count and never move the first-observed
time; the rate query answers none exactly in the NoneReceived state and
otherwise divides the cumulative count by the elapsed seconds; in particular
one message at time 0 plus nine at time 10 rate to 1 per second, and ten
further messages at that instant rate to 2 per second. -/
theorem c7_message_rate :
    (∀ (r : MessageRate) (now : Nat), r.add_messages 0 now = r) ∧
    (∀ (n now : Nat), MessageRate.noneReceived.add_messages n now =
      if n = 0 then MessageRate.noneReceived
      else MessageRate.ongoing ((min n U32_MAX : Nat) : ℚ) now) ∧
    (∀ (c : ℚ) (s n now : Nat), (MessageRate.ongoing c s).add_messages n now =
      if n = 0 then MessageRate.ongoing c s
      else MessageRate.ongoing (c + ((min n U32_MAX : Nat) : ℚ)) s) ∧
    (∀ now : Nat, MessageRate.noneReceived.messages_per_secs now = none) ∧
    (∀ (c : ℚ) (s now : Nat), (MessageRate.ongoing c s).messages_per_secs now =
      some (c / ((now - s : Nat) : ℚ))) ∧
    ((MessageRate.new.add_messages 1 0).add_messages 9 10).messages_per_secs 10 =
      some 1 ∧
    (((MessageRate.new.add_messages 1 0).add_messages 9 10).add_messages 10 10).messages_per_secs 10 =
      some 2 := by
  refine ⟨?_, ?_, ?_, ?_, ?_, ?_, ?_⟩
  · intro r now; rfl
  · intro n now
    by_cases h : n = 0 <;> simp [MessageRate.add_messages, h]
  · intro c s n now
    by_cases h : n = 0 <;> simp [MessageRate.add_messages, h]
  · intro now; rfl
  · intro c s now; rfl
  · norm_num [MessageRate.new, MessageRate.add_messages, MessageRate.messages_per_secs, U32_MAX]
  · norm_num [MessageRate.new, MessageRate.add_messages, MessageRate.messages_per_secs, U32_MAX]

/-- Modifying one category entry never changes which categories are present. -/
theorem timedGet_modifyEntry_isSome (tm : TimedMessages) (key key2 : TimedMessage)
    (f : MessageRate → MessageRate) :
    (TimedMessages.get (tm.modifyEntry key f) key2).isSome =
      (TimedMessages.get tm key2).isSome := by
  induction tm with
  | nil => rfl
  | cons hd rest ih =>
    obtain ⟨k0, r⟩ := hd
    simp only [TimedMessages.modifyEntry]
    split
    · simp only [TimedMessages.get]
      split <;> rfl
    · simp only [TimedMessages.get]
      split
      · rfl
      · exact ih

/-- Any operation sequence on a map holding every category keeps every
category present and never reaches the panic branch. -/
theorem applyTimedOps_total (ops : List TimedOp) :
    ∀ tm : TimedMessages, (∀ k, (TimedMessages.get tm k).isSome = true) →
      ∃ tm2, applyTimedOps tm ops = some tm2 ∧
        ∀ k, (TimedMessages.get tm2 k).isSome = true := by
  induction ops with
  | nil => intro tm h; exact ⟨tm, rfl, h⟩
  | cons op ops ih =>
    intro tm h
    cases op with
    | single m now =>
      obtain ⟨r, hr⟩ := Option.isSome_iff_exists.mp (h m)
      have hstep : applyTimedOp tm (TimedOp.single m now) =
          some (tm.modifyEntry m (fun val => val.add_single_message now)) := by
        simp [applyTimedOp, TimedMessages.add_single, hr]
      obtain ⟨tm2, htm2, hinv⟩ :=
        ih (tm.modifyEntry m (fun val => val.add_single_message now))
          (fun k => (timedGet_modifyEntry_isSome tm m k _).trans (h k))
      exact ⟨tm2, by simp [applyTimedOps, hstep, htm2], hinv⟩
    | many m num now =>
      obtain ⟨r, hr⟩ := Option.isSome_iff_exists.mp (h m)
      have hstep : applyTimedOp tm (TimedOp.many m num now) =
          some (tm.modifyEntry m (fun val => val.add_messages num now)) := by
        simp [applyTimedOp, TimedMessages.add_many, hr]
      obtain ⟨tm2, htm2, hinv⟩ :=
        ih (tm.modifyEntry m (fun val => val.add_messages num now))
          (fun k => (timedGet_modifyEntry_isSome tm m k _).trans (h k))
      exact ⟨tm2, by simp [applyTimedOps, hstep, htm2], hinv⟩

/-- C10: from the constructed map, which holds all four timed-message
categories, every sequence of add_single and add_many operations succeeds
without ever taking the missing-category panic branch, and every rate query
finds its accumulator present. -/
theorem c10_timed_map_complete (ops : List TimedOp) :
    ∃ tm2, applyTimedOps TimedMessages.new ops = some tm2 ∧
      ∀ k, (TimedMessages.message_rate tm2 k).isSome = true := by
  have hnew : ∀ k, (TimedMessages.get TimedMessages.new k).isSome = true := by
    intro k; cases k <;> rfl
  obtain ⟨tm2, h1, h2⟩ := applyTimedOps_total ops TimedMessages.new hnew
  exact ⟨tm2, h1, h2⟩

/-- C1 counterexample: with an equal nonce and a version far below the floor,
start_handshake fails with ConnectionToSelf, not TooLowVersion, so the
TooLowVersion outcome is not independent of the nonce field; moreover an
acceptable version (70016, at least the maximum of configured floor 70016 and
absolute floor 31800) does not make the handshake succeed when the nonce is
equal or a required service bit is missing. -/
theorem c1_nonce_and_services_counterexample :
    ConnectionConfig.new.start_handshake 0
        (NetworkMessage.version (mockVersionMsg 0 0 42)) 42 =
      Except.error HandshakeError.connectionToSelf ∧
    resultIsTooLowVersion (ConnectionConfig.new.start_handshake 0
        (NetworkMessage.version (mockVersionMsg 0 0 42)) 42) = false ∧
    (0 : Nat) < max ConnectionConfig.new.expected_version MIN_PEER_PROTO_VERSION ∧
    (ConnectionConfig.new.start_handshake 0
        (NetworkMessage.version (mockVersionMsg 70016 0 42)) 42).isOk = false ∧
    max ConnectionConfig.new.expected_version MIN_PEER_PROTO_VERSION ≤ 70016 ∧
    ((ConnectionConfig.new.set_service_requirement 1).start_handshake 0
        (NetworkMessage.version (mockVersionMsg 70016 0 43)) 42) =
      Except.error (HandshakeError.missingService 0) := by
  refine ⟨rfl, rfl, by decide, rfl, by decide, rfl⟩

/-- C1 amended: provided the peer nonce differs from ours, a declared version
below the maximum of the configured minimum and the absolute protocol floor
fails with TooLowVersion regardless of every other field, and when the
required service bits are also present the handshake succeeds exactly when
the declared version reaches that maximum. -/
theorem c1_version_floor_amended (cfg : ConnectionConfig) (v : VersionMessage)
    (t nonce : Nat) (hn : v.nonce ≠ nonce) :
    (v.version < max cfg.expected_version MIN_PEER_PROTO_VERSION →
      cfg.start_handshake t (NetworkMessage.version v) nonce =
        Except.error (HandshakeError.tooLowVersion v.version)) ∧
    (serviceFlagsHas v.services cfg.expected_services = true →
      ((cfg.start_handshake t (NetworkMessage.version v) nonce).isOk = true ↔
        max cfg.expected_version MIN_PEER_PROTO_VERSION ≤ v.version)) := by
  constructor
  · intro hv
    simp only [ConnectionConfig.start_handshake]
    rw [if_neg hn, if_pos (lt_max_iff.mp hv)]
  · intro hs
    simp only [ConnectionConfig.start_handshake]
    rw [if_neg hn]
    by_cases hv : v.version < cfg.expected_version ∨ v.version < MIN_PEER_PROTO_VERSION
    · rw [if_pos hv]
      simp only [Except.isOk, Except.toBool]
      constructor
      · intro h; exact absurd h (by simp)
      · intro h; exact absurd (lt_max_iff.mpr hv) (not_lt.mpr h)
    · rw [if_neg hv, if_neg (by simp [hs])]
      simp only [Except.isOk, Except.toBool, true_iff]
      push_neg at hv
      exact max_le (le_of_not_lt (fun h => (not_le.mpr h) hv.1))
        (le_of_not_lt (fun h => (not_le.mpr h) hv.2))

/-- C1 amended witness: the default configuration rejects a peer declaring
version 70012 with TooLowVersion when the nonces differ, and accepts one
declaring 70016. -/
theorem c1_version_floor_amended_witness :
    (mockVersionMsg 70012 0 43).nonce ≠ 42 ∧
    ConnectionConfig.new.start_handshake 0
        (NetworkMessage.version (mockVersionMsg 70012 0 43)) 42 =
      Except.error (HandshakeError.tooLowVersion 70012) ∧
    (ConnectionConfig.new.start_handshake 0
        (NetworkMessage.version (mockVersionMsg 70016 0 43)) 42).isOk = true := by
  have h1 := c1_version_floor_amended ConnectionConfig.new (mockVersionMsg 70012 0 43)
    0 42 (by decide)
  have h2 := c1_version_floor_amended ConnectionConfig.new (mockVersionMsg 70016 0 43)
    0 42 (by decide)
  exact ⟨by decide, h1.1 (by decide), (h2.2 (by decide)).mpr (by decide)⟩

/-- C2: every successful start_handshake reports the effective version as the
minimum of our configured version and the peer-declared version, and its
outbound list is the deterministic function upgradeMessages of that effective
version alone, which for every effective version contains exactly one of the
header-announce opt-in and the final-alert placeholder. -/
theorem c2_effective_version_upgrade_list (cfg : ConnectionConfig)
    (v : VersionMessage) (t nonce : Nat) (hs : InitializedHandshake)
    (msgs : List NetworkMessage)
    (h : cfg.start_handshake t (NetworkMessage.version v) nonce = Except.ok (hs, msgs)) :
    hs.feeler.effective_version = min cfg.our_version v.version ∧
    msgs = upgradeMessages (min cfg.our_version v.version) ∧
    ∀ ev : ProtocolVersion,
      (upgradeMessages ev).countP NetworkMessage.isSendHeadersMsg +
        (upgradeMessages ev).countP NetworkMessage.isAlertMsg = 1 := by
  simp only [ConnectionConfig.start_handshake] at h
  by_cases h1 : v.nonce = nonce
  · rw [if_pos h1] at h; exact absurd h (by simp)
  rw [if_neg h1] at h
  by_cases h2 : v.version < cfg.expected_version ∨ v.version < MIN_PEER_PROTO_VERSION
  · rw [if_pos h2] at h; exact absurd h (by simp)
  rw [if_neg h2] at h
  by_cases h3 : (!serviceFlagsHas v.services cfg.expected_services) = true
  · rw [if_pos h3] at h; exact absurd h (by simp)
  rw [if_neg h3] at h
  simp only [Except.ok.injEq, Prod.mk.injEq] at h
  obtain ⟨hA, hL⟩ := h
  refine ⟨by rw [← hA], by rw [← hL]; rfl, ?_⟩
  intro ev
  simp only [upgradeMessages]
  split_ifs <;> rfl

/-- C2 witness: the default configuration against the mock peer at version
70016 succeeds with effective version 70016 and the full three-message
upgrade list. -/
theorem c2_effective_version_upgrade_list_witness :
    mockHandshakeState.feeler.effective_version =
      min ConnectionConfig.new.our_version (mockVersionMsg 70016 0 43).version ∧
    [NetworkMessage.wtxidRelay, NetworkMessage.sendAddrV2, NetworkMessage.sendHeaders] =
      upgradeMessages (min ConnectionConfig.new.our_version (mockVersionMsg 70016 0 43).version) := by
  have h := c2_effective_version_upgrade_list ConnectionConfig.new
    (mockVersionMsg 70016 0 43) 0 42 mockHandshakeState
    [NetworkMessage.wtxidRelay, NetworkMessage.sendAddrV2, NetworkMessage.sendHeaders]
    (by rfl)
  exact ⟨h.1, h.2.1⟩

/-- Probe and confirmation accounting for a run of the liveness machine: the
probes issued, plus the probes outstanding initially, equal the confirmations
received plus the probes outstanding at the end. -/
theorem runPing_accounting (interval : Nat) (events : List PingEvent) :
    ∀ st : OutboundPing,
      (runPing interval st events).2.1 + OutboundPing.outstanding st =
        (runPing interval st events).2.2 +
          OutboundPing.outstanding (runPing interval st events).1 := by
  induction events with
  | nil => intro st; simp [runPing]
  | cons e es ih =>
    intro st
    have hstep : (pingStep interval st e).2 + OutboundPing.outstanding st =
        pingConfirms st e +
          OutboundPing.outstanding (pingStep interval st e).1 := by
      cases e with
      | writer ev now fresh =>
        cases ev <;> cases st <;>
          simp only [pingStep, pingCheck, pingConfirms, OutboundPing.outstanding] <;>
          try rfl
        split <;> rfl
      | pongMsg n now =>
        cases st with
        | waiting pending since =>
          simp only [pingStep, ConnectionReader.pongUpdate, pingConfirms,
            OutboundPing.outstanding]
          split <;> simp [OutboundPing.outstanding]
        | lastReceived since => rfl
    have hrest := ih (pingStep interval st e).1
    simp only [runPing]
    omega

/-- C3: starting from a fresh confirmation, every trace of writer iterations
and inbound pong replies satisfies probes = confirmations + outstanding with
outstanding at most one, so there is never more than one unmatched ping; the
liveness check issues a probe only from LastReceived and only when strictly
more than the ping interval has elapsed, stamping the fresh nonce and send
time; from Waiting it issues nothing; and only a matching-nonce reply returns
Waiting to LastReceived. -/
theorem c3_at_most_one_outstanding_ping :
    (∀ (interval t0 : Nat) (events : List PingEvent),
      (runPing interval (OutboundPing.lastReceived t0) events).2.1 =
        (runPing interval (OutboundPing.lastReceived t0) events).2.2 +
          OutboundPing.outstanding (runPing interval (OutboundPing.lastReceived t0) events).1 ∧
      OutboundPing.outstanding (runPing interval (OutboundPing.lastReceived t0) events).1 ≤ 1) ∧
    (∀ interval n t now fresh : Nat,
      pingCheck interval (OutboundPing.waiting n t) now fresh =
        (OutboundPing.waiting n t, [])) ∧
    (∀ interval t now fresh : Nat,
      pingCheck interval (OutboundPing.lastReceived t) now fresh =
        if interval < now - t then
          (OutboundPing.waiting fresh now, [NetworkMessage.ping fresh])
        else (OutboundPing.lastReceived t, [])) ∧
    (∀ n t pong_nonce now : Nat,
      ConnectionReader.pongUpdate (OutboundPing.waiting n t) pong_nonce now =
        if pong_nonce = n then OutboundPing.lastReceived now
        else OutboundPing.waiting n t) := by
  refine ⟨?_, ?_, ?_, ?_⟩
  · intro interval t0 events
    have h := runPing_accounting interval events (OutboundPing.lastReceived t0)
    constructor
    · simpa [OutboundPing.outstanding] using h
    · cases hfin : (runPing interval (OutboundPing.lastReceived t0) events).1 <;>
        simp [OutboundPing.outstanding]
  · intro interval n t now fresh; rfl
  · intro interval t now fresh; rfl
  · intro n t pong_nonce now; rfl

/-- The reader-side preference updates never touch the witness-txid flag. -/
theorem readerPrefFold_sendwtxid (rs : List NetworkMessage) :
    ∀ p : Preferences, (readerPrefFold p rs).sendwtxid = p.sendwtxid := by
  induction rs with
  | nil => intro p; rfl
  | cons m ms ih =>
    intro p
    have hm : (readerPrefUpdate p m).sendwtxid = p.sendwtxid := by
      cases m <;> rfl
    simpa [readerPrefFold, List.foldl_cons, hm] using
      (ih (readerPrefUpdate p m)).trans hm

/-- The reader-side preference updates never touch the v2-address flag. -/
theorem readerPrefFold_sendaddrv2 (rs : List NetworkMessage) :
    ∀ p : Preferences, (readerPrefFold p rs).sendaddrv2 = p.sendaddrv2 := by
  induction rs with
  | nil => intro p; rfl
  | cons m ms ih =>
    intro p
    have hm : (readerPrefUpdate p m).sendaddrv2 = p.sendaddrv2 := by
      cases m <;> rfl
    simpa [readerPrefFold, List.foldl_cons, hm] using
      (ih (readerPrefUpdate p m)).trans hm

/-- The reader-side preference updates set the header-announce flag exactly
when a SendHeaders message appears, and never clear it. -/
theorem readerPrefFold_sendheaders (rs : List NetworkMessage) :
    ∀ p : Preferences, (readerPrefFold p rs).sendheaders =
      (p.sendheaders || rs.any NetworkMessage.isSendHeadersMsg) := by
  induction rs with
  | nil => intro p; simp [readerPrefFold]
  | cons m ms ih =>
    intro p
    have hm : (readerPrefUpdate p m).sendheaders =
        (p.sendheaders || NetworkMessage.isSendHeadersMsg m) := by
      cases m <;> simp [readerPrefUpdate, NetworkMessage.isSendHeadersMsg]
    calc (readerPrefFold p (m :: ms)).sendheaders
        = ((readerPrefUpdate p m).sendheaders || ms.any NetworkMessage.isSendHeadersMsg) :=
          ih (readerPrefUpdate p m)
      _ = (p.sendheaders || (m :: ms).any NetworkMessage.isSendHeadersMsg) := by
          rw [hm]; simp [List.any_cons, Bool.or_assoc]

/-- Negotiation over feature messages always succeeds and accumulates the
three boolean flags monotonically: each ends set exactly when it started set
or its message was observed. -/
theorem negotiateAll_feature_flags (ns : List NetworkMessage) :
    ∀ hs0 : InitializedHandshake, ns.all NetworkMessage.isFeatureMsg = true →
      ∃ hs1, negotiateAll hs0 ns = Except.ok hs1 ∧
        hs1.their_preferences.sendwtxid =
          (hs0.their_preferences.sendwtxid || ns.any NetworkMessage.isWtxidRelayMsg) ∧
        hs1.their_preferences.sendaddrv2 =
          (hs0.their_preferences.sendaddrv2 || ns.any NetworkMessage.isSendAddrV2Msg) ∧
        hs1.their_preferences.sendheaders =
          (hs0.their_preferences.sendheaders || ns.any NetworkMessage.isSendHeadersMsg) := by
  induction ns with
  | nil => intro hs0 _; exact ⟨hs0, rfl, by simp, by simp, by simp⟩
  | cons m ms ih =>
    intro hs0 hall
    simp only [List.all_cons, Bool.and_eq_true] at hall
    obtain ⟨hm, hms⟩ := hall
    cases m with
    | wtxidRelay =>
      obtain ⟨hs1, h1, hw, ha, hh⟩ :=
        ih { hs0 with their_preferences := { hs0.their_preferences with sendwtxid := true } } hms
      refine ⟨hs1, by simpa [negotiateAll, InitializedHandshake.negotiate] using h1, ?_, ?_, ?_⟩
      · rw [hw]; simp [NetworkMessage.isWtxidRelayMsg]
      · rw [ha]; simp [NetworkMessage.isWtxidRelayMsg, NetworkMessage.isSendAddrV2Msg]
      · rw [hh]; simp [NetworkMessage.isWtxidRelayMsg, NetworkMessage.isSendHeadersMsg]
    | sendAddrV2 =>
      obtain ⟨hs1, h1, hw, ha, hh⟩ :=
        ih { hs0 with their_preferences := { hs0.their_preferences with sendaddrv2 := true } } hms
      refine ⟨hs1, by simpa [negotiateAll, InitializedHandshake.negotiate] using h1, ?_, ?_, ?_⟩
      · rw [hw]; simp [NetworkMessage.isWtxidRelayMsg]
      · rw [ha]; simp [NetworkMessage.isSendAddrV2Msg]
      · rw [hh]; simp [NetworkMessage.isSendHeadersMsg]
    | sendHeaders =>
      obtain ⟨hs1, h1, hw, ha, hh⟩ :=
        ih { hs0 with their_preferences := { hs0.their_preferences with sendheaders := true } } hms
      refine ⟨hs1, by simpa [negotiateAll, InitializedHandshake.negotiate] using h1, ?_, ?_, ?_⟩
      · rw [hw]; simp [NetworkMessage.isWtxidRelayMsg]
      · rw [ha]; simp [NetworkMessage.isSendAddrV2Msg]
      · rw [hh]; simp [NetworkMessage.isSendHeadersMsg]
    | sendCmpct c =>
      obtain ⟨hs1, h1, hw, ha, hh⟩ :=
        ih { hs0 with their_preferences := { hs0.their_preferences with sendcmpct := c } } hms
      refine ⟨hs1, by simpa [negotiateAll, InitializedHandshake.negotiate] using h1, ?_, ?_, ?_⟩
      · rw [hw]; simp [NetworkMessage.isWtxidRelayMsg]
      · rw [ha]; simp [NetworkMessage.isSendAddrV2Msg]
      · rw [hh]; simp [NetworkMessage.isSendHeadersMsg]
    | version v => exact absurd hm (by simp [NetworkMessage.isFeatureMsg])
    | verack => exact absurd hm (by simp [NetworkMessage.isFeatureMsg])
    | feeFilter f => exact absurd hm (by simp [NetworkMessage.isFeatureMsg])
    | getAddr => exact absurd hm (by simp [NetworkMessage.isFeatureMsg])
    | alert a => exact absurd hm (by simp [NetworkMessage.isFeatureMsg])
    | ping n => exact absurd hm (by simp [NetworkMessage.isFeatureMsg])
    | pong n => exact absurd hm (by simp [NetworkMessage.isFeatureMsg])
    | block => exact absurd hm (by simp [NetworkMessage.isFeatureMsg])
    | headers => exact absurd hm (by simp [NetworkMessage.isFeatureMsg])
    | cfilter => exact absurd hm (by simp [NetworkMessage.isFeatureMsg])
    | addr l => exact absurd hm (by simp [NetworkMessage.isFeatureMsg])
    | addrV2 l => exact absurd hm (by simp [NetworkMessage.isFeatureMsg])
    | otherMessage s => exact absurd hm (by simp [NetworkMessage.isFeatureMsg])

/-- C6 counterexample: the handshake state produced by a real start_handshake
begins with all preference fields unset, yet the compact-block preference
flag, once set by a SendCmpct opt-in during negotiation, is cleared again by
a later SendCmpct carrying false, and a SendAddrV2 delivered to the
post-handshake reader never sets the v2-address flag, so the claimed
set-iff-observed and never-revert behaviour fails. -/
theorem c6_cmpct_flag_reverts_counterexample :
    startHandshakeState (ConnectionConfig.new.start_handshake 0
        (NetworkMessage.version (mockVersionMsg 70016 0 43)) 42) =
      some mockHandshakeState ∧
    mockHandshakeState.their_preferences = Preferences.new ∧
    Preferences.new.sendcmpct.send_compact = false ∧
    negotiatedCmpctFlag mockHandshakeState
        [NetworkMessage.sendCmpct { send_compact := true, version := 1 }] = some true ∧
    negotiatedCmpctFlag mockHandshakeState
        [NetworkMessage.sendCmpct { send_compact := true, version := 1 },
         NetworkMessage.sendCmpct { send_compact := false, version := 1 }] = some false ∧
    readerPrefFold Preferences.new [NetworkMessage.sendAddrV2] = Preferences.new := by
  refine ⟨rfl, rfl, rfl, rfl, rfl, rfl⟩

/-- C6 amended: the three boolean preference flags start unset and never
revert; a negotiation-phase sequence of feature messages always succeeds and
leaves the witness-txid and v2-address flags set exactly when their opt-in
was observed during negotiation (the post-handshake reader ignores those two
messages), while the header-announce flag ends set exactly when SendHeaders
was observed in either phase; the compact-block preference is instead
overwritten with each received value and may revert. -/
theorem c6_flags_monotone_amended (hs0 : InitializedHandshake)
    (ns rs : List NetworkMessage) (h : ns.all NetworkMessage.isFeatureMsg = true) :
    ∃ hs1, negotiateAll hs0 ns = Except.ok hs1 ∧
      (readerPrefFold hs1.their_preferences rs).sendwtxid =
        (hs0.their_preferences.sendwtxid || ns.any NetworkMessage.isWtxidRelayMsg) ∧
      (readerPrefFold hs1.their_preferences rs).sendaddrv2 =
        (hs0.their_preferences.sendaddrv2 || ns.any NetworkMessage.isSendAddrV2Msg) ∧
      (readerPrefFold hs1.their_preferences rs).sendheaders =
        ((hs0.their_preferences.sendheaders || ns.any NetworkMessage.isSendHeadersMsg) ||
          rs.any NetworkMessage.isSendHeadersMsg) := by
  obtain ⟨hs1, h1, hw, ha, hh⟩ := negotiateAll_feature_flags ns hs0 h
  refine ⟨hs1, h1, ?_, ?_, ?_⟩
  · rw [readerPrefFold_sendwtxid, hw]
  · rw [readerPrefFold_sendaddrv2, ha]
  · rw [readerPrefFold_sendheaders, hh]

/-- C6 amended witness: a single witness-txid opt-in during negotiation sets
exactly that flag, from the state a real start_handshake produced. -/
theorem c6_flags_monotone_amended_witness :
    ∃ hs1, negotiateAll mockHandshakeState [NetworkMessage.wtxidRelay] = Except.ok hs1 ∧
      (readerPrefFold hs1.their_preferences []).sendwtxid =
        (mockHandshakeState.their_preferences.sendwtxid ||
          [NetworkMessage.wtxidRelay].any NetworkMessage.isWtxidRelayMsg) ∧
      (readerPrefFold hs1.their_preferences []).sendaddrv2 =
        (mockHandshakeState.their_preferences.sendaddrv2 ||
          [NetworkMessage.wtxidRelay].any NetworkMessage.isSendAddrV2Msg) ∧
      (readerPrefFold hs1.their_preferences []).sendheaders =
        ((mockHandshakeState.their_preferences.sendheaders ||
          [NetworkMessage.wtxidRelay].any NetworkMessage.isSendHeadersMsg) ||
          List.any [] NetworkMessage.isSendHeadersMsg) :=
  c6_flags_monotone_amended mockHandshakeState [NetworkMessage.wtxidRelay] [] (by rfl)
